import Mathlib

/-!
Verification of the Getis-Ord Gi* hotspot analysis core of the geo_mcp
repository (`geo_mcp/core/spatial_analysis.py`, mirrored by the MCP tool in
`mcp-client/server.py`).  The Python floating-point computation is embedded
over the real numbers; the scipy standard-normal CDF `norm.cdf` is an external
library routine and is modelled as an explicit function parameter `Φ`, with
the analytic facts used about it stated as hypotheses where a theorem needs
them.
-/

namespace GeoMCP

noncomputable section

open Real Finset

/-- Degrees to radians, as `np.radians`. -/
def radians (deg : ℝ) : ℝ := deg * (Real.pi / 180)

/-- Unit-sphere haversine central angle between two points given in radians,
as computed by `sklearn.metrics.pairwise.haversine_distances`:
`2·arcsin(√(sin²((φ₂−φ₁)/2) + cos φ₁ · cos φ₂ · sin²((λ₂−λ₁)/2)))`. -/
def haversine (φ₁ l₁ φ₂ l₂ : ℝ) : ℝ :=
  2 * Real.arcsin (Real.sqrt
    (Real.sin ((φ₂ - φ₁) / 2) ^ 2 +
      Real.cos φ₁ * Real.cos φ₂ * Real.sin ((l₂ - l₁) / 2) ^ 2))

/-- A loaded table: its column names, its row count `len(df)`, and the cell
values (all analysis columns are coerced to float, hence `ℝ`). -/
structure DataFrame where
  columns : List String
  nrows : ℕ
  cell : String → ℕ → ℝ

/-- One invocation of `hotspot_analysis_getis_ord_gi_star`: the file-system
facts the function inspects, the table obtained from the file (with
`readError` modelling a pandas read raising inside the `try`), the three
column-name arguments, and the optional scalar threshold
(`distance_threshold is None` ↦ `none`; the MCP tool layer defaults it to
`None`, the core's own Python default binds `1000.0`). -/
structure Request where
  filePath : String
  fileExists : Bool
  readError : Option String
  df : DataFrame
  latCol : String
  lonCol : String
  valueCol : String
  distance_threshold : Option ℝ

/-- `n = len(df)`. -/
def nPoints (r : Request) : ℕ := r.df.nrows

/-- Latitude of point `i` (column `lat_col`). -/
def latAt (r : Request) (i : ℕ) : ℝ := r.df.cell r.latCol i

/-- Longitude of point `i` (column `lon_col`). -/
def lonAt (r : Request) (i : ℕ) : ℝ := r.df.cell r.lonCol i

/-- Analysed attribute value of point `i` (column `value_col`). -/
def valueAt (r : Request) (i : ℕ) : ℝ := r.df.cell r.valueCol i

/-- `dists[i][j]`: haversine distance on radian coordinates, scaled by the
Earth radius 6 371 000 m (line `dists = haversine_distances(...) * 6371000`). -/
def distAt (r : Request) (i j : ℕ) : ℝ :=
  haversine (radians (latAt r i)) (radians (lonAt r i))
    (radians (latAt r j)) (radians (lonAt r j)) * 6371000

/-- The branch condition `distance_threshold is None and "distance" in
df.columns` selecting the variable-threshold policy. -/
def usesVariablePolicy (r : Request) : Bool :=
  r.distance_threshold.isNone && r.df.columns.contains "distance"

/-- Weight matrix entry before the diagonal fill: under the variable policy
row `i` is thresholded by point `i`'s own `distance` cell, otherwise by the
scalar threshold with the `1000.0` default. -/
def wijRaw (r : Request) (i j : ℕ) : ℕ :=
  if usesVariablePolicy r then
    if distAt r i j ≤ r.df.cell "distance" i then 1 else 0
  else
    if distAt r i j ≤ r.distance_threshold.getD 1000 then 1 else 0

/-- Final weight matrix entry, after `np.fill_diagonal(wij, 0)`. -/
def wijAt (r : Request) (i j : ℕ) : ℕ :=
  if i = j then 0 else wijRaw r i j

/-- The `distance_threshold` value echoed in the response: the scalar
actually used, or the sentinel for the variable/per-point policy (the string
`"variable (from data)"` in the core, `"variable"` in the MCP tool). -/
inductive UsedDistance where
  | variableFromData : UsedDistance
  | fixed : ℝ → UsedDistance
deriving DecidableEq

/-- `used_distance` as assigned in the two policy branches. -/
def usedDistance (r : Request) : UsedDistance :=
  if usesVariablePolicy r then .variableFromData
  else .fixed (r.distance_threshold.getD 1000)

/-- `sum_wij[i] = wij.sum(axis=1)`. -/
def sumWij (r : Request) (i : ℕ) : ℕ :=
  ∑ j ∈ Finset.range (nPoints r), wijAt r i j

/-- `xj_sum = np.sum(xj)`. -/
def xjSum (r : Request) : ℝ :=
  ∑ j ∈ Finset.range (nPoints r), valueAt r j

/-- `xj2_sum = np.sum(xj ** 2)`. -/
def xj2Sum (r : Request) : ℝ :=
  ∑ j ∈ Finset.range (nPoints r), valueAt r j ^ 2

/-- `mean_x = xj_sum / n`. -/
def meanX (r : Request) : ℝ := xjSum r / nPoints r

/-- `s = np.sqrt((xj2_sum / n) - mean_x ** 2)`, the population pooled
standard deviation. -/
def pooledStd (r : Request) : ℝ :=
  Real.sqrt (xj2Sum r / nPoints r - meanX r ^ 2)

/-- `num = np.sum(wij_i * xj)`. -/
def numAt (r : Request) (i : ℕ) : ℝ :=
  ∑ j ∈ Finset.range (nPoints r), (wijAt r i j : ℝ) * valueAt r j

/-- `np.sum(wij_i ** 2)`. -/
def wij2SumAt (r : Request) (i : ℕ) : ℕ :=
  ∑ j ∈ Finset.range (nPoints r), wijAt r i j ^ 2

/-- The quotient `(n * np.sum(wij_i ** 2) - sum_wij_i ** 2) / (n - 1)`
under the square root of the denominator. -/
def innerAt (r : Request) (i : ℕ) : ℝ :=
  ((nPoints r : ℝ) * (wij2SumAt r i : ℝ) - (sumWij r i : ℝ) ^ 2) /
    ((nPoints r : ℝ) - 1)

/-- `denom = s * np.sqrt(...)`. -/
def denomAt (r : Request) (i : ℕ) : ℝ :=
  pooledStd r * Real.sqrt (innerAt r i)

/-- `gi_star`: `0` on the `denom == 0` branch, otherwise
`(num - mean_x * sum_wij_i) / denom`. -/
def giStarAt (r : Request) (i : ℕ) : ℝ :=
  if denomAt r i = 0 then 0
  else (numAt r i - meanX r * (sumWij r i : ℝ)) / denomAt r i

/-- `z_score`, set equal to `gi_star` on both branches. -/
def zScoreAt (r : Request) (i : ℕ) : ℝ := giStarAt r i

/-- `p_value`: `1` on the `denom == 0` branch, otherwise
`2 * (1 - norm.cdf(abs(z_score)))` with the CDF modelled by `Φ`. -/
def pValueAt (Φ : ℝ → ℝ) (r : Request) (i : ℕ) : ℝ :=
  if denomAt r i = 0 then 1 else 2 * (1 - Φ |zScoreAt r i|)

/-- Classification against the fixed 99 %-confidence constants. -/
def labelOf (z : ℝ) : String :=
  if z > 2.58 then "hotspot"
  else if z < -2.58 then "coldspot"
  else "not significant"

/-- One entry of the `results` list. -/
structure HotspotResult where
  index : ℕ
  latitude : ℝ
  longitude : ℝ
  value : ℝ
  gi_star : ℝ
  z_score : ℝ
  p_value : ℝ
  label : String
  neighbors : ℕ

/-- The dictionary appended for point `i`. -/
def resultAt (Φ : ℝ → ℝ) (r : Request) (i : ℕ) : HotspotResult where
  index := i
  latitude := latAt r i
  longitude := lonAt r i
  value := valueAt r i
  gi_star := giStarAt r i
  z_score := zScoreAt r i
  p_value := pValueAt Φ r i
  label := labelOf (zScoreAt r i)
  neighbors := sumWij r i

/-- The `results` list, built by the `for i in range(n)` loop in input
order. -/
def resultsList (Φ : ℝ → ℝ) (r : Request) : List HotspotResult :=
  (List.range (nPoints r)).map (resultAt Φ r)

/-- The returned JSON document: either a failure object carrying only an
`info` message, or the success object with `count`, the echoed
`distance_threshold` and the `results` list. -/
inductive HotspotOutput where
  | failure : String → HotspotOutput
  | success : ℕ → UsedDistance → List HotspotResult → HotspotOutput

/-- `str.lower()`, character-wise ASCII lowercasing (every path the code
compares is ASCII). -/
def pyLower (s : String) : String := ⟨s.data.map Char.toLower⟩

/-- `str.endswith(post)`: the last `len(post)` characters equal `post`. -/
def pyEndsWith (s post : String) : Bool :=
  s.data.drop (s.data.length - post.data.length) == post.data

/-- The extension dispatch: `.csv` is read with `read_csv`, `.xls`/`.xlsx`
with `read_excel`, anything else is the unsupported-format failure. -/
def extensionOk (path : String) : Bool :=
  pyEndsWith (pyLower path) ".csv" || pyEndsWith (pyLower path) ".xls" ||
    pyEndsWith (pyLower path) ".xlsx"

/-- The whole of `hotspot_analysis_getis_ord_gi_star`: the existence check,
the extension dispatch, the read (whose raised exceptions land in the
`except` clause), the column check in `[lat_col, lon_col, value_col]` order,
then the assembled success document. -/
def hotspot_analysis_getis_ord_gi_star (Φ : ℝ → ℝ) (r : Request) :
    HotspotOutput :=
  if r.fileExists then
    if extensionOk r.filePath then
      match r.readError with
      | some e => .failure ("热点分析出错: " ++ e)
      | none =>
        if r.df.columns.contains r.latCol then
          if r.df.columns.contains r.lonCol then
            if r.df.columns.contains r.valueCol then
              .success (nPoints r) (usedDistance r) (resultsList Φ r)
            else .failure ("缺少字段: " ++ r.valueCol)
          else .failure ("缺少字段: " ++ r.lonCol)
        else .failure ("缺少字段: " ++ r.latCol)
    else .failure "仅支持csv、xls、xlsx文件"
  else .failure ("文件不存在: " ++ r.filePath)

/-- All guards passed: the invocation reaches the analysis proper. -/
def requestOk (r : Request) : Bool :=
  r.fileExists && extensionOk r.filePath && r.readError.isNone &&
    r.df.columns.contains r.latCol && r.df.columns.contains r.lonCol &&
    r.df.columns.contains r.valueCol

/-! A concrete standard-normal CDF stand-in for `scipy.stats.norm.cdf`,
used to instantiate `Φ` in witnesses: any strictly increasing sigmoid with
value 1/2 at 0 and range inside (0, 1) satisfies every property of the CDF
that the theorems assume. -/

def arctanCDF (x : ℝ) : ℝ := 1 / 2 + Real.arctan x / Real.pi

/-- Placeholder entry used as the `List.getD` default when indexing the
results list. -/
def emptyResult : HotspotResult where
  index := 0
  latitude := 0
  longitude := 0
  value := 0
  gi_star := 0
  z_score := 0
  p_value := 0
  label := ""
  neighbors := 0

/-! Definitions transcribed from the spec's §4.3 and §4.4 formulas (rather
than from the code), for the refinement comparison of claim C2. -/

/-- Spec §4.3: `mean = (Σx_j) / n`. -/
def spec_mean (r : Request) : ℝ :=
  (∑ j ∈ Finset.range (nPoints r), valueAt r j) / (nPoints r : ℝ)

/-- Spec §4.3: `pooled_std = sqrt((Σx_j²)/n − mean²)`. -/
def spec_pooled_std (r : Request) : ℝ :=
  Real.sqrt ((∑ j ∈ Finset.range (nPoints r), valueAt r j ^ 2) /
    (nPoints r : ℝ) - spec_mean r ^ 2)

/-- Spec §4.4: `sum_w_i = Σ_j w_i[j]`. -/
def spec_sum_w (r : Request) (i : ℕ) : ℝ :=
  ∑ j ∈ Finset.range (nPoints r), (wijAt r i j : ℝ)

/-- Spec §4.4: `numerator = (Σ_j w_i[j]·x_j) − mean·sum_w_i`. -/
def spec_numerator (r : Request) (i : ℕ) : ℝ :=
  (∑ j ∈ Finset.range (nPoints r), (wijAt r i j : ℝ) * valueAt r j) -
    spec_mean r * spec_sum_w r i

/-- Spec §4.4: `denom = pooled_std · sqrt((n·Σ_j w_i[j]² − sum_w_i²)/(n − 1))`. -/
def spec_denom (r : Request) (i : ℕ) : ℝ :=
  spec_pooled_std r * Real.sqrt
    (((nPoints r : ℝ) *
        (∑ j ∈ Finset.range (nPoints r), (wijAt r i j : ℝ) ^ 2) -
      spec_sum_w r i ^ 2) / ((nPoints r : ℝ) - 1))

/-! Concrete inputs used to witness the theorems: small CSV tables of
coincident points at (0, 0), where every pairwise haversine distance is 0. -/

/-- Attribute column 0, 2, 1 of the three-point table. -/
def exVal (i : ℕ) : ℝ := if i = 1 then 2 else if i = 2 then 1 else 0

/-- Three coincident points with values 0, 2, 1. -/
def exDF3 : DataFrame where
  columns := ["lat", "lon", "val"]
  nrows := 3
  cell := fun c i => if c = "val" then exVal i else 0

/-- Three-point request with an explicit 1000 m scalar threshold. -/
def exReq3 : Request where
  filePath := "points.csv"
  fileExists := true
  readError := none
  df := exDF3
  latCol := "lat"
  lonCol := "lon"
  valueCol := "val"
  distance_threshold := some 1000

/-- Two coincident points with the identical value 5. -/
def exDFConst : DataFrame where
  columns := ["lat", "lon", "val"]
  nrows := 2
  cell := fun c _ => if c = "val" then 5 else 0

/-- Two-point constant-value request (zero pooled standard deviation). -/
def exReqConst : Request where
  filePath := "points.csv"
  fileExists := true
  readError := none
  df := exDFConst
  latCol := "lat"
  lonCol := "lon"
  valueCol := "val"
  distance_threshold := some 1000

/-- Two points carrying a per-point `distance` column. -/
def exDFVar : DataFrame where
  columns := ["lat", "lon", "val", "distance"]
  nrows := 2
  cell := fun c _ => if c = "val" then 5 else if c = "distance" then 100 else 0

/-- Request with no scalar threshold and a `distance` column: the
variable-threshold policy applies. -/
def exReqVar : Request where
  filePath := "points.csv"
  fileExists := true
  readError := none
  df := exDFVar
  latCol := "lat"
  lonCol := "lon"
  valueCol := "val"
  distance_threshold := none

/-- Request with no scalar threshold and no `distance` column: the fixed
policy applies with the 1000 m default. -/
def exReqDefault : Request where
  filePath := "points.csv"
  fileExists := true
  readError := none
  df := exDF3
  latCol := "lat"
  lonCol := "lon"
  valueCol := "val"
  distance_threshold := none

/-- Single-point table. -/
def exDF1 : DataFrame where
  columns := ["lat", "lon", "val"]
  nrows := 1
  cell := fun c _ => if c = "val" then 5 else 0

/-- Single-point request (`n = 1`). -/
def exReq1 : Request where
  filePath := "points.csv"
  fileExists := true
  readError := none
  df := exDF1
  latCol := "lat"
  lonCol := "lon"
  valueCol := "val"
  distance_threshold := some 1000

/-- Request whose file does not exist. -/
def exReqMissing : Request where
  filePath := "absent.csv"
  fileExists := false
  readError := none
  df := exDF3
  latCol := "lat"
  lonCol := "lon"
  valueCol := "val"
  distance_threshold := some 1000

/-! Basic lemmas about the embedded pipeline. -/

theorem haversine_self (φ l : ℝ) : haversine φ l φ l = 0 := by
  simp [haversine]

theorem sin_half_sub_sq_comm (x y : ℝ) :
    Real.sin ((x - y) / 2) ^ 2 = Real.sin ((y - x) / 2) ^ 2 := by
  rw [show (x - y) / 2 = -((y - x) / 2) by ring, Real.sin_neg, neg_sq]

theorem haversine_comm (φ₁ l₁ φ₂ l₂ : ℝ) :
    haversine φ₁ l₁ φ₂ l₂ = haversine φ₂ l₂ φ₁ l₁ := by
  unfold haversine
  rw [sin_half_sub_sq_comm φ₂ φ₁, sin_half_sub_sq_comm l₂ l₁,
    mul_comm (Real.cos φ₁) (Real.cos φ₂)]

theorem distAt_self (r : Request) (i : ℕ) : distAt r i i = 0 := by
  rw [distAt, haversine_self, zero_mul]

theorem distAt_comm (r : Request) (i j : ℕ) : distAt r i j = distAt r j i := by
  rw [distAt, distAt, haversine_comm]

theorem wijAt_self (r : Request) (i : ℕ) : wijAt r i i = 0 := if_pos rfl

theorem wijAt_eq_one_iff_fixed (r : Request) (h : usesVariablePolicy r = false)
    {i j : ℕ} (hij : i ≠ j) :
    wijAt r i j = 1 ↔ distAt r i j ≤ r.distance_threshold.getD 1000 := by
  rw [wijAt, if_neg hij, wijRaw, h]
  simp only [Bool.false_eq_true, if_false]
  split_ifs with hd <;> simp [hd]

theorem wijAt_eq_one_iff_var (r : Request) (h : usesVariablePolicy r = true)
    {i j : ℕ} (hij : i ≠ j) :
    wijAt r i j = 1 ↔ distAt r i j ≤ r.df.cell "distance" i := by
  rw [wijAt, if_neg hij, wijRaw, h]
  simp only [if_true]
  split_ifs with hd <;> simp [hd]

theorem wijAt_symm_of_fixed (r : Request) (h : usesVariablePolicy r = false)
    (i j : ℕ) : wijAt r i j = wijAt r j i := by
  rcases eq_or_ne i j with rfl | hij
  · rfl
  · rw [wijAt, if_neg hij, wijAt, if_neg (Ne.symm hij), wijRaw, wijRaw, h]
    simp only [Bool.false_eq_true, if_false]
    rw [distAt_comm]

theorem usedDistance_of_fixed (r : Request) (h : usesVariablePolicy r = false) :
    usedDistance r = .fixed (r.distance_threshold.getD 1000) := by
  rw [usedDistance, h]
  simp

theorem usedDistance_of_var (r : Request) (h : usesVariablePolicy r = true) :
    usedDistance r = .variableFromData := by
  rw [usedDistance, h]
  simp

theorem usesVariablePolicy_false_of_fixed (r : Request) (t : ℝ)
    (h : usedDistance r = .fixed t) : usesVariablePolicy r = false := by
  cases hb : usesVariablePolicy r
  · rfl
  · rw [usedDistance_of_var r hb] at h
    exact absurd h (by simp)

theorem hotspot_eq_success (Φ : ℝ → ℝ) (r : Request) (h : requestOk r = true) :
    hotspot_analysis_getis_ord_gi_star Φ r =
      .success (nPoints r) (usedDistance r) (resultsList Φ r) := by
  simp only [requestOk, Bool.and_eq_true, Option.isNone_iff_eq_none] at h
  obtain ⟨⟨⟨⟨⟨h1, h2⟩, h3⟩, h4⟩, h5⟩, h6⟩ := h
  have h4' : r.latCol ∈ r.df.columns := by simpa using h4
  have h5' : r.lonCol ∈ r.df.columns := by simpa using h5
  have h6' : r.valueCol ∈ r.df.columns := by simpa using h6
  simp [hotspot_analysis_getis_ord_gi_star, h1, h2, h3, h4', h5', h6']

theorem arctanCDF_zero : arctanCDF 0 = 1 / 2 := by
  simp [arctanCDF, Real.arctan_zero]

theorem arctanCDF_monotone : Monotone arctanCDF := by
  intro a b hab
  unfold arctanCDF
  have h := Real.arctan_strictMono.monotone hab
  gcongr

theorem arctanCDF_lt_one (x : ℝ) : arctanCDF x < 1 := by
  unfold arctanCDF
  have h := Real.arctan_lt_pi_div_two x
  have hπ := Real.pi_pos
  have h2 : Real.arctan x / Real.pi < 1 / 2 := by
    rw [div_lt_iff₀ hπ]
    linarith
  linarith

theorem arctanCDF_gt_half (x : ℝ) (hx : 0 < x) : 1 / 2 < arctanCDF x := by
  unfold arctanCDF
  have h : 0 < Real.arctan x := by
    rw [← Real.arctan_zero]
    exact Real.arctan_strictMono hx
  have : 0 < Real.arctan x / Real.pi := div_pos h Real.pi_pos
  linarith

/-! Evaluation lemmas on the concrete inputs. -/

theorem distAt_coincident (r : Request) (i j : ℕ) (hlat : latAt r i = latAt r j)
    (hlon : lonAt r i = lonAt r j) : distAt r i j = 0 := by
  rw [distAt, hlat, hlon, haversine_self, zero_mul]

theorem exReq3_distAt (i j : ℕ) : distAt exReq3 i j = 0 :=
  distAt_coincident _ i j (by simp [latAt, exReq3, exDF3])
    (by simp [lonAt, exReq3, exDF3])

theorem usesVariablePolicy_exReq3 : usesVariablePolicy exReq3 = false := rfl

theorem exReq3_wijAt (i j : ℕ) : wijAt exReq3 i j = if i = j then 0 else 1 := by
  rcases eq_or_ne i j with rfl | hij
  · rw [wijAt_self, if_pos rfl]
  · rw [if_neg hij, wijAt, if_neg hij, wijRaw, usesVariablePolicy_exReq3]
    simp only [Bool.false_eq_true, if_false]
    have hd : distAt exReq3 i j ≤ exReq3.distance_threshold.getD 1000 := by
      rw [exReq3_distAt]
      norm_num [exReq3]
    rw [if_pos hd]

theorem exReq3_valueAt (j : ℕ) : valueAt exReq3 j = exVal j := by
  simp [valueAt, exReq3, exDF3]

theorem exReq3_nPoints : nPoints exReq3 = 3 := rfl

theorem exReq3_xjSum : xjSum exReq3 = 3 := by
  norm_num [xjSum, exReq3_nPoints, Finset.sum_range_succ, exReq3_valueAt, exVal]

theorem exReq3_xj2Sum : xj2Sum exReq3 = 5 := by
  norm_num [xj2Sum, exReq3_nPoints, Finset.sum_range_succ, exReq3_valueAt, exVal]

theorem exReq3_meanX : meanX exReq3 = 1 := by
  rw [meanX, exReq3_xjSum, exReq3_nPoints]
  norm_num

theorem exReq3_pooledStd : pooledStd exReq3 = Real.sqrt (2 / 3) := by
  rw [pooledStd, exReq3_xj2Sum, exReq3_meanX, exReq3_nPoints]
  norm_num

theorem exReq3_sumWij2 : sumWij exReq3 2 = 2 := by
  norm_num [sumWij, exReq3_nPoints, Finset.sum_range_succ, exReq3_wijAt]

theorem exReq3_wij2Sum2 : wij2SumAt exReq3 2 = 2 := by
  norm_num [wij2SumAt, exReq3_nPoints, Finset.sum_range_succ, exReq3_wijAt]

theorem exReq3_num2 : numAt exReq3 2 = 2 := by
  norm_num [numAt, exReq3_nPoints, Finset.sum_range_succ, exReq3_wijAt,
    exReq3_valueAt, exVal]

theorem exReq3_inner2 : innerAt exReq3 2 = 1 := by
  rw [innerAt, exReq3_nPoints, exReq3_wij2Sum2, exReq3_sumWij2]
  norm_num

theorem exReq3_denom2 : denomAt exReq3 2 = Real.sqrt (2 / 3) := by
  rw [denomAt, exReq3_pooledStd, exReq3_inner2, Real.sqrt_one, mul_one]

theorem exReq3_denom2_ne : denomAt exReq3 2 ≠ 0 := by
  rw [exReq3_denom2]
  exact Real.sqrt_ne_zero'.mpr (by norm_num)

theorem exReq3_giStar2 : giStarAt exReq3 2 = 0 := by
  rw [giStarAt, if_neg exReq3_denom2_ne, exReq3_num2, exReq3_meanX,
    exReq3_sumWij2]
  norm_num

theorem exReqConst_nPoints : nPoints exReqConst = 2 := rfl

theorem exReqConst_valueAt (j : ℕ) : valueAt exReqConst j = 5 := by
  simp [valueAt, exReqConst, exDFConst]

theorem exReqConst_pooledStd : pooledStd exReqConst = 0 := by
  have h : xj2Sum exReqConst / (nPoints exReqConst : ℝ) - meanX exReqConst ^ 2 = 0 := by
    norm_num [xj2Sum, meanX, xjSum, exReqConst_nPoints, Finset.sum_range_succ,
      exReqConst_valueAt]
  rw [pooledStd, h, Real.sqrt_zero]

theorem exReqConst_denom (i : ℕ) : denomAt exReqConst i = 0 := by
  rw [denomAt, exReqConst_pooledStd, zero_mul]

theorem exReq1_nPoints : nPoints exReq1 = 1 := rfl

/-! The claims. -/

/-- C1: for every input point whose Gi* denominator evaluates to 0, the
engine sets `gi_star = 0`, `z_score = 0`, `p_value = 1`, performing no
division, and the invocation still returns the success document — the
degenerate case is never reported as a failure. -/
theorem claim_C1 (Φ : ℝ → ℝ) (r : Request) (hok : requestOk r = true) (i : ℕ)
    (hd : denomAt r i = 0) :
    giStarAt r i = 0 ∧ zScoreAt r i = 0 ∧ pValueAt Φ r i = 1 ∧
      hotspot_analysis_getis_ord_gi_star Φ r =
        .success (nPoints r) (usedDistance r) (resultsList Φ r) :=
  ⟨if_pos hd, if_pos hd, if_pos hd, hotspot_eq_success Φ r hok⟩

/-- Witness for C1: two coincident points with identical value 5 give
`pooled_std = 0`, hence a zero denominator, and the degenerate 0/0/1 output
inside a success document. -/
theorem claim_C1_witness :
    requestOk exReqConst = true ∧ denomAt exReqConst 0 = 0 ∧
      giStarAt exReqConst 0 = 0 ∧ zScoreAt exReqConst 0 = 0 ∧
      pValueAt arctanCDF exReqConst 0 = 1 ∧
      hotspot_analysis_getis_ord_gi_star arctanCDF exReqConst =
        .success (nPoints exReqConst) (usedDistance exReqConst)
          (resultsList arctanCDF exReqConst) := by
  have hok : requestOk exReqConst = true := by decide
  have h := claim_C1 arctanCDF exReqConst hok 0 (exReqConst_denom 0)
  exact ⟨hok, exReqConst_denom 0, h.1, h.2.1, h.2.2.1, h.2.2.2⟩

/-- C2: the global statistics are the mean and the population (no Bessel
correction) pooled standard deviation of the spec's §4.3 formulas, and for
every point with nonzero denominator, `gi_star` equals the spec's §4.4
quotient, `z_score` equals `gi_star`, and `p_value = 2·(1 − Φ(|z_score|))`. -/
theorem claim_C2 (Φ : ℝ → ℝ) (r : Request) :
    meanX r = spec_mean r ∧ pooledStd r = spec_pooled_std r ∧
      ∀ i, denomAt r i ≠ 0 →
        giStarAt r i = spec_numerator r i / spec_denom r i ∧
        zScoreAt r i = giStarAt r i ∧
        pValueAt Φ r i = 2 * (1 - Φ |zScoreAt r i|) := by
  have hmean : meanX r = spec_mean r := rfl
  have hsumw : ∀ i, (sumWij r i : ℝ) = spec_sum_w r i := by
    intro i
    rw [sumWij, spec_sum_w]
    push_cast
    rfl
  have hw2 : ∀ i, (wij2SumAt r i : ℝ) =
      ∑ j ∈ Finset.range (nPoints r), (wijAt r i j : ℝ) ^ 2 := by
    intro i
    rw [wij2SumAt]
    push_cast
    rfl
  have hstd : pooledStd r = spec_pooled_std r := by
    rw [pooledStd, spec_pooled_std, hmean]
    rfl
  have hdenom : ∀ i, denomAt r i = spec_denom r i := by
    intro i
    rw [denomAt, spec_denom, hstd, innerAt, hw2 i, hsumw i]
  refine ⟨hmean, hstd, fun i hi => ⟨?_, rfl, ?_⟩⟩
  · rw [giStarAt, if_neg hi, spec_numerator, ← hmean, ← hsumw i, ← hdenom i]
    rfl
  · rw [pValueAt, if_neg hi]

/-- Witness for C2: point 2 of the three-point example has a nonzero
denominator and satisfies the spec formulas. -/
theorem claim_C2_witness :
    denomAt exReq3 2 ≠ 0 ∧
      giStarAt exReq3 2 = spec_numerator exReq3 2 / spec_denom exReq3 2 ∧
      zScoreAt exReq3 2 = giStarAt exReq3 2 ∧
      pValueAt arctanCDF exReq3 2 = 2 * (1 - arctanCDF |zScoreAt exReq3 2|) :=
  ⟨exReq3_denom2_ne, (claim_C2 arctanCDF exReq3).2.2 2 exReq3_denom2_ne⟩

/-- C3: the variable-threshold policy applies exactly when no scalar
threshold is supplied and a per-point `distance` column exists (row `i`
thresholded by point `i`'s own radius, echoed with the variable sentinel);
every other invocation uses the fixed policy — the supplied scalar, or the
1000 m default when none is supplied (including when the `distance` column
is absent) — and the applied threshold is echoed as a scalar. -/
theorem claim_C3 (r : Request) :
    (r.distance_threshold = none → "distance" ∈ r.df.columns →
      usedDistance r = .variableFromData ∧
        ∀ i j, i ≠ j →
          (wijAt r i j = 1 ↔ distAt r i j ≤ r.df.cell "distance" i)) ∧
    (∀ t : ℝ, r.distance_threshold = some t →
      usedDistance r = .fixed t ∧
        ∀ i j, i ≠ j → (wijAt r i j = 1 ↔ distAt r i j ≤ t)) ∧
    (r.distance_threshold = none → "distance" ∉ r.df.columns →
      usedDistance r = .fixed 1000 ∧
        ∀ i j, i ≠ j → (wijAt r i j = 1 ↔ distAt r i j ≤ 1000)) := by
  refine ⟨fun h1 h2 => ?_, fun t ht => ?_, fun h1 h2 => ?_⟩
  · have hv : usesVariablePolicy r = true := by
      simp [usesVariablePolicy, h1, h2]
    exact ⟨usedDistance_of_var r hv,
      fun i j hij => wijAt_eq_one_iff_var r hv hij⟩
  · have hv : usesVariablePolicy r = false := by
      simp [usesVariablePolicy, ht]
    have hg : r.distance_threshold.getD 1000 = t := by
      rw [ht, Option.getD_some]
    refine ⟨?_, fun i j hij => hg ▸ wijAt_eq_one_iff_fixed r hv hij⟩
    rw [usedDistance_of_fixed r hv, hg]
  · have hv : usesVariablePolicy r = false := by
      simp [usesVariablePolicy, h1, h2]
    have hg : r.distance_threshold.getD 1000 = 1000 := by
      rw [h1, Option.getD_none]
    refine ⟨?_, fun i j hij => hg ▸ wijAt_eq_one_iff_fixed r hv hij⟩
    rw [usedDistance_of_fixed r hv, hg]

/-- Witness for C3: the three policy branches on concrete requests — a
`distance` column with no scalar threshold echoes the variable sentinel, an
explicit scalar echoes that scalar, and neither echoes the 1000 m default. -/
theorem claim_C3_witness :
    usedDistance exReqVar = .variableFromData ∧
      usedDistance exReq3 = .fixed 1000 ∧
      usedDistance exReqDefault = .fixed 1000 :=
  ⟨((claim_C3 exReqVar).1 rfl (by decide)).1,
   ((claim_C3 exReq3).2.1 1000 rfl).1,
   ((claim_C3 exReqDefault).2.2 rfl (by decide)).1⟩

/-- C4 counterexample: the claim "p_value == 1 exactly when the denominator
is zero" fails at point 2 of the concrete three-point input: its denominator
is the nonzero `√(2/3)`, yet its numerator vanishes, so `z_score = 0` and
`p_value = 2·(1 − Φ(0)) = 1`. -/
theorem claim_C4_counterexample :
    denomAt exReq3 2 ≠ 0 ∧ pValueAt arctanCDF exReq3 2 = 1 := by
  refine ⟨exReq3_denom2_ne, ?_⟩
  rw [pValueAt, if_neg exReq3_denom2_ne, zScoreAt, exReq3_giStar2, abs_zero,
    arctanCDF_zero]
  norm_num

/-- C4 (amended): for every result, `p_value ∈ [0, 1]`; and `p_value == 1`
exactly when the point's denominator is zero or its `z_score` is zero (the
numerator vanishes) — the zero-denominator direction alone is not an
equivalence. Stated for any monotone CDF model `Φ` with `Φ(0) = 1/2`,
`Φ(x) < 1`, and `Φ(x) > 1/2` for `x > 0`, all true of the standard normal
CDF. -/
theorem claim_C4 (Φ : ℝ → ℝ) (r : Request) (i : ℕ) (hmono : Monotone Φ)
    (h0 : Φ 0 = 1 / 2) (hlt : ∀ x, Φ x < 1)
    (hgt : ∀ x, 0 < x → 1 / 2 < Φ x) :
    (0 ≤ pValueAt Φ r i ∧ pValueAt Φ r i ≤ 1) ∧
      (pValueAt Φ r i = 1 ↔ denomAt r i = 0 ∨ zScoreAt r i = 0) := by
  by_cases hd : denomAt r i = 0
  · rw [pValueAt, if_pos hd]
    exact ⟨⟨zero_le_one, le_refl 1⟩, by simp [hd]⟩
  · rw [pValueAt, if_neg hd]
    have habs : (0 : ℝ) ≤ |zScoreAt r i| := abs_nonneg _
    have hge : 1 / 2 ≤ Φ |zScoreAt r i| := h0 ▸ hmono habs
    have hlt1 : Φ |zScoreAt r i| < 1 := hlt _
    refine ⟨⟨by linarith, by linarith⟩, ?_, ?_⟩
    · intro hp
      by_contra hcon
      push_neg at hcon
      have hz : 0 < |zScoreAt r i| := abs_pos.mpr hcon.2
      have := hgt _ hz
      linarith
    · rintro (hc | hz)
      · exact absurd hc hd
      · rw [hz, abs_zero, h0]
        norm_num

/-- Witness for C4 (amended), instantiated with the concrete CDF model at
point 2 of the three-point input. -/
theorem claim_C4_witness :
    (0 ≤ pValueAt arctanCDF exReq3 2 ∧ pValueAt arctanCDF exReq3 2 ≤ 1) ∧
      (pValueAt arctanCDF exReq3 2 = 1 ↔
        denomAt exReq3 2 = 0 ∨ zScoreAt exReq3 2 = 0) :=
  claim_C4 arctanCDF exReq3 2 arctanCDF_monotone arctanCDF_zero
    arctanCDF_lt_one arctanCDF_gt_half

/-- C5: every result's label comes from `labelOf` applied to its z-score,
and `labelOf` is determined solely by the fixed constants: `hotspot` iff
`z > 2.58`, `coldspot` iff `z < -2.58`, `not significant` otherwise. -/
theorem claim_C5 (Φ : ℝ → ℝ) (r : Request) (i : ℕ) :
    (resultAt Φ r i).label = labelOf (zScoreAt r i) ∧
      ∀ z : ℝ,
        (labelOf z = "hotspot" ↔ z > 2.58) ∧
        (labelOf z = "coldspot" ↔ z < -2.58) ∧
        (labelOf z = "not significant" ↔ ¬z > 2.58 ∧ ¬z < -2.58) := by
  refine ⟨rfl, fun z => ?_⟩
  unfold labelOf
  split_ifs with h1 h2
  · exact ⟨iff_of_true rfl h1, iff_of_false (by decide) (by linarith),
      iff_of_false (by decide) fun hc => hc.1 h1⟩
  · exact ⟨iff_of_false (by decide) h1, iff_of_true rfl h2,
      iff_of_false (by decide) fun hc => hc.2 h2⟩
  · exact ⟨iff_of_false (by decide) h1, iff_of_false (by decide) h2,
      iff_of_true rfl ⟨h1, h2⟩⟩

/-- Witness for C5: the three classification bands at concrete z-scores. -/
theorem claim_C5_witness :
    labelOf 3 = "hotspot" ∧ labelOf (-3) = "coldspot" ∧
      labelOf 0 = "not significant" :=
  ⟨((claim_C5 arctanCDF exReq3 0).2 3).1.mpr (by norm_num),
   ((claim_C5 arctanCDF exReq3 0).2 (-3)).2.1.mpr (by norm_num),
   ((claim_C5 arctanCDF exReq3 0).2 0).2.2.mpr (by norm_num)⟩

/-- C6: under the fixed-threshold policy the distance matrix and the weight
matrix are symmetric, and every off-diagonal entry is 1 exactly when the
haversine distance is within the applied threshold. -/
theorem claim_C6 (r : Request) (t : ℝ)
    (hfix : usedDistance r = .fixed t) :
    ∀ i j, distAt r i j = distAt r j i ∧ wijAt r i j = wijAt r j i ∧
      (i ≠ j → (wijAt r i j = 1 ↔ distAt r i j ≤ t)) := by
  have hv : usesVariablePolicy r = false :=
    usesVariablePolicy_false_of_fixed r t hfix
  have ht : r.distance_threshold.getD 1000 = t := by
    have h := usedDistance_of_fixed r hv
    rw [hfix] at h
    injection h with h
    exact h.symm
  intro i j
  exact ⟨distAt_comm r i j, wijAt_symm_of_fixed r hv i j,
    fun hij => ht ▸ wijAt_eq_one_iff_fixed r hv hij⟩

/-- Witness for C6 on the three-point fixed-threshold request: coincident
points at distance 0 ≤ 1000 are mutual neighbors. -/
theorem claim_C6_witness :
    distAt exReq3 0 1 = distAt exReq3 1 0 ∧
      wijAt exReq3 0 1 = wijAt exReq3 1 0 ∧
      (wijAt exReq3 0 1 = 1 ↔ distAt exReq3 0 1 ≤ 1000) := by
  have h := claim_C6 exReq3 1000 rfl 0 1
  exact ⟨h.1, h.2.1, h.2.2 (by decide)⟩

/-- C7: for every point and under both threshold policies the final weight
matrix has `w[i][i] = 0` (the forced-zero diagonal), even though
`dist[i][i] = 0` always lies within any non-negative threshold. -/
theorem claim_C7 (r : Request) (i : ℕ) :
    wijAt r i i = 0 ∧ distAt r i i = 0 :=
  ⟨wijAt_self r i, distAt_self r i⟩

/-- Helper for C9: every invocation returns either a failure document with a
nonempty message, or the fully assembled success document. -/
theorem hotspot_failure_or_success (Φ : ℝ → ℝ) (r : Request) :
    (∃ info, hotspot_analysis_getis_ord_gi_star Φ r = .failure info ∧
      info.length ≠ 0) ∨
      hotspot_analysis_getis_ord_gi_star Φ r =
        .success (nPoints r) (usedDistance r) (resultsList Φ r) := by
  unfold hotspot_analysis_getis_ord_gi_star
  by_cases h1 : r.fileExists = true
  · rw [if_pos h1]
    by_cases h2 : extensionOk r.filePath = true
    · rw [if_pos h2]
      cases hre : r.readError with
      | some e =>
        left
        refine ⟨_, rfl, ?_⟩
        rw [String.length_append]
        have h8 : ("热点分析出错: " : String).length = 8 := rfl
        omega
      | none =>
        by_cases h4 : r.df.columns.contains r.latCol = true
        · rw [if_pos h4]
          by_cases h5 : r.df.columns.contains r.lonCol = true
          · rw [if_pos h5]
            by_cases h6 : r.df.columns.contains r.valueCol = true
            · rw [if_pos h6]
              right
              rfl
            · rw [if_neg h6]
              left
              refine ⟨_, rfl, ?_⟩
              rw [String.length_append]
              have h6' : ("缺少字段: " : String).length = 6 := rfl
              omega
          · rw [if_neg h5]
            left
            refine ⟨_, rfl, ?_⟩
            rw [String.length_append]
            have h6' : ("缺少字段: " : String).length = 6 := rfl
            omega
        · rw [if_neg h4]
          left
          refine ⟨_, rfl, ?_⟩
          rw [String.length_append]
          have h6' : ("缺少字段: " : String).length = 6 := rfl
          omega
    · rw [if_neg h2]
      left
      exact ⟨_, rfl, by decide⟩
  · rw [if_neg h1]
    left
    refine ⟨_, rfl, ?_⟩
    rw [String.length_append]
    have h7 : ("文件不存在: " : String).length = 7 := rfl
    omega

/-- C8: every success produces exactly `n` results, and the `i`-th entry
describes input point `i`: its index is `i` and it carries that point's
latitude, longitude and value, in input order. -/
theorem claim_C8 (Φ : ℝ → ℝ) (r : Request) :
    (resultsList Φ r).length = nPoints r ∧
      ∀ i, i < nPoints r →
        ((resultsList Φ r).getD i emptyResult).index = i ∧
        ((resultsList Φ r).getD i emptyResult).latitude = latAt r i ∧
        ((resultsList Φ r).getD i emptyResult).longitude = lonAt r i ∧
        ((resultsList Φ r).getD i emptyResult).value = valueAt r i := by
  refine ⟨by simp [resultsList], fun i hi => ?_⟩
  have hg : (resultsList Φ r).getD i emptyResult = resultAt Φ r i := by
    rw [resultsList, List.getD_eq_getElem?_getD, List.getElem?_map,
      List.getElem?_range hi, Option.map_some', Option.getD_some]
  rw [hg]
  exact ⟨rfl, rfl, rfl, rfl⟩

/-- Witness for C8 at index 1 of the three-point input. -/
theorem claim_C8_witness :
    1 < nPoints exReq3 ∧
      ((resultsList arctanCDF exReq3).getD 1 emptyResult).index = 1 ∧
      ((resultsList arctanCDF exReq3).getD 1 emptyResult).latitude =
        latAt exReq3 1 ∧
      ((resultsList arctanCDF exReq3).getD 1 emptyResult).longitude =
        lonAt exReq3 1 ∧
      ((resultsList arctanCDF exReq3).getD 1 emptyResult).value =
        valueAt exReq3 1 := by
  have h := (claim_C8 arctanCDF exReq3).2 1 (by decide)
  exact ⟨by decide, h.1, h.2.1, h.2.2.1, h.2.2.2⟩

/-- C9: every failing invocation (missing file, unsupported extension, read
exception, missing column) returns — rather than raises — a failure document
with a descriptive (nonempty) message and no results, and every success
carries the complete `n`-element results list, never a partial one. -/
theorem claim_C9 (Φ : ℝ → ℝ) (r : Request) :
    (r.fileExists = false →
      hotspot_analysis_getis_ord_gi_star Φ r =
        .failure ("文件不存在: " ++ r.filePath)) ∧
    (r.fileExists = true → extensionOk r.filePath = false →
      hotspot_analysis_getis_ord_gi_star Φ r =
        .failure "仅支持csv、xls、xlsx文件") ∧
    (∀ e, r.fileExists = true → extensionOk r.filePath = true →
      r.readError = some e →
      hotspot_analysis_getis_ord_gi_star Φ r =
        .failure ("热点分析出错: " ++ e)) ∧
    (r.fileExists = true → extensionOk r.filePath = true →
      r.readError = none → r.df.columns.contains r.latCol = false →
      hotspot_analysis_getis_ord_gi_star Φ r =
        .failure ("缺少字段: " ++ r.latCol)) ∧
    (∀ info, hotspot_analysis_getis_ord_gi_star Φ r = .failure info →
      info.length ≠ 0) ∧
    (∀ c ud rs, hotspot_analysis_getis_ord_gi_star Φ r = .success c ud rs →
      c = nPoints r ∧ ud = usedDistance r ∧ rs = resultsList Φ r ∧
        rs.length = nPoints r) := by
  refine ⟨?_, ?_, ?_, ?_, ?_, ?_⟩
  · intro h
    simp [hotspot_analysis_getis_ord_gi_star, h]
  · intro hfe hext
    simp [hotspot_analysis_getis_ord_gi_star, hfe, hext]
  · intro e hfe hext hre
    simp [hotspot_analysis_getis_ord_gi_star, hfe, hext, hre]
  · intro hfe hext hre h4
    have h4' : r.latCol ∉ r.df.columns := by simpa using h4
    simp [hotspot_analysis_getis_ord_gi_star, hfe, hext, hre, h4']
  · intro info hinfo
    rcases hotspot_failure_or_success Φ r with ⟨i', hi', hlen⟩ | hs
    · rw [hinfo] at hi'
      injection hi' with h
      rwa [h]
    · rw [hinfo] at hs
      exact absurd hs (by simp)
  · intro c ud rs hout
    rcases hotspot_failure_or_success Φ r with ⟨i', hi', _⟩ | hs
    · rw [hout] at hi'
      exact absurd hi' (by simp)
    · rw [hout] at hs
      injection hs with hc hu hr
      refine ⟨hc, hu, hr, ?_⟩
      rw [hr]
      simp [resultsList]

/-- Witness for C9: the nonexistent-file request returns the missing-file
failure document, and a fully valid request returns a success document whose
results list has exactly `n` entries. -/
theorem claim_C9_witness :
    hotspot_analysis_getis_ord_gi_star arctanCDF exReqMissing =
      .failure ("文件不存在: " ++ "absent.csv") ∧
      (resultsList arctanCDF exReq3).length = nPoints exReq3 := by
  constructor
  · exact (claim_C9 arctanCDF exReqMissing).1 rfl
  · have h := (claim_C9 arctanCDF exReq3).2.2.2.2.2 (nPoints exReq3)
      (usedDistance exReq3) (resultsList arctanCDF exReq3)
      (hotspot_eq_success arctanCDF exReq3 (by decide))
    exact h.2.2.2

/-- C10: all the divisions of the Gi* computation are safe exactly under the
precondition `n ≥ 2`: then the divisor `n` of the mean, the divisor `n − 1`
inside the denominator and the guarded divisor `denom` are all nonzero (each
quotient multiplies back to its dividend), whereas a single-point input makes
the unguarded `n − 1` divisor zero. -/
theorem claim_C10 (r : Request) :
    (2 ≤ nPoints r →
      ((nPoints r : ℝ) ≠ 0 ∧ ((nPoints r : ℝ) - 1) ≠ 0 ∧
        meanX r * (nPoints r : ℝ) = xjSum r ∧
        (∀ i, innerAt r i * ((nPoints r : ℝ) - 1) =
          (nPoints r : ℝ) * (wij2SumAt r i : ℝ) - (sumWij r i : ℝ) ^ 2) ∧
        ∀ i, denomAt r i ≠ 0 →
          giStarAt r i * denomAt r i =
            numAt r i - meanX r * (sumWij r i : ℝ))) ∧
    (nPoints r = 1 → ((nPoints r : ℝ) - 1) = 0) := by
  constructor
  · intro hn
    have h2 : (2 : ℝ) ≤ (nPoints r : ℝ) := by exact_mod_cast hn
    have hn0 : (nPoints r : ℝ) ≠ 0 := ne_of_gt (by linarith)
    have hn1 : ((nPoints r : ℝ) - 1) ≠ 0 := ne_of_gt (by linarith)
    refine ⟨hn0, hn1, ?_, fun i => ?_, fun i hd => ?_⟩
    · rw [meanX]
      exact div_mul_cancel₀ _ hn0
    · rw [innerAt]
      exact div_mul_cancel₀ _ hn1
    · rw [giStarAt, if_neg hd]
      exact div_mul_cancel₀ _ hd
  · intro h1
    rw [h1]
    norm_num

/-- Witness for C10: the two-point constant request satisfies the `n ≥ 2`
precondition with nonzero divisors, and the single-point request has a zero
`n − 1` divisor. -/
theorem claim_C10_witness :
    ((nPoints exReqConst : ℝ) ≠ 0 ∧ ((nPoints exReqConst : ℝ) - 1) ≠ 0) ∧
      ((nPoints exReq1 : ℝ) - 1) = 0 := by
  have hA := (claim_C10 exReqConst).1 (by decide)
  have hB := (claim_C10 exReq1).2 exReq1_nPoints
  exact ⟨⟨hA.1, hA.2.1⟩, hB⟩

end

end GeoMCP
